import Mathlib

/-!
Verification of the credential / session-token subsystem of the
RusseLiteratureServer repository (Go).  The definitions below are a shallow
embedding of the Go source: `internal/services/auth/auth.go`,
`internal/storage/sqlite/sqlite.go` (both revisions), and
`internal/app/rest/app.go`, plus the behaviour of the third-party
`golang.org/x/crypto/bcrypt` and `golang-jwt/jwt/v5` libraries at the call
sites the code uses.  Parts of the repository that are only declared in the
sources at hand (the body of `Auth.Login`, the token-issuing helper and the
gRPC request-validation layer) are modelled from the specification and are
marked as such in their doc comments.
-/

deriving instance DecidableEq for Except

namespace RusseLit

/-! ## Bytes of a Go string

Go converts `password string` to `[]byte(password)` (its UTF-8 bytes) before
handing it to bcrypt. -/

/-- The byte sequence `[]byte(s)` of a Go string: its UTF-8 encoding
(the byte list underlying `String.toUTF8`). -/
def goBytes (s : String) : List Nat :=
  (s.data.flatMap String.utf8EncodeChar).map (fun b => b.toNat)

/-! ## bcrypt (golang.org/x/crypto/bcrypt)

`GenerateFromPassword(password, cost)` embeds a random salt and the cost in
the produced hash and rejects passwords longer than 72 bytes
(`ErrPasswordTooLong`); a cost below `MinCost` (4) is replaced by
`DefaultCost` (10).  `CompareHashAndPassword` re-derives the key from the
candidate password with the salt and cost stored in the hash and compares;
it matches exactly when the candidate equals the hashed password. -/

/-- Error cases of `bcrypt.GenerateFromPassword` relevant at this call site:
the password exceeded 72 bytes. -/
inductive BcryptErr where
  | passwordTooLong : BcryptErr
deriving Repr, DecidableEq

/-- A bcrypt hash: the hash string encodes its own cost and salt together
with the derived key, so verification needs no external salt storage.  The
derived key is modelled as the hashed password bytes, which is faithful for
the equality tests the service performs. -/
structure BcryptHash where
  cost : Nat
  salt : Nat
  key : List Nat
deriving Repr, DecidableEq

/-- `bcrypt.DefaultCost`. -/
def bcryptDefaultCost : Nat := 10

/-- `bcrypt.GenerateFromPassword(password, cost)`: fails on passwords longer
than 72 bytes, otherwise produces a salted hash at the (normalised) cost.
The salt drawn from the entropy source is passed explicitly. -/
def bcryptGenerateFromPassword (salt : Nat) (password : List Nat) (cost : Nat) :
    Except BcryptErr BcryptHash :=
  if 72 < password.length then
    .error .passwordTooLong
  else
    .ok ⟨if cost < 4 then bcryptDefaultCost else cost, salt, password⟩

/-- `bcrypt.CompareHashAndPassword(hash, password)` as a boolean: true
exactly when the candidate password re-derives the stored key. -/
def bcryptCompareHashAndPassword (h : BcryptHash) (password : List Nat) : Bool :=
  h.key == password

/-! ## Credential store, first revision
(`internal/storage/sqlite/sqlite.go`, `users`/`feed` schema)

`SaveUser` inserts the user row (`INSERT INTO users(phone, pass_hash, feed)
VALUES(?, ?, 0)`), maps a unique-constraint violation to
`storage.ErrUserExists` ("user already exists") returning id 0, then runs
two further statements outside any transaction: `UPDATE users SET feed = id
WHERE phone = ?` and `INSERT INTO feed(id, authors, articles, poets)`.  A
failure of either later statement returns the already-assigned id together
with a non-nil error, leaving the earlier writes in place. -/

/-- A row of the `users` table in the first schema revision. -/
structure UserRow where
  id : Int
  phone : String
  passHash : BcryptHash
  feed : Int
deriving Repr, DecidableEq

/-- A row of the `feed` table. -/
structure FeedRow where
  id : Int
  authors : String
  articles : String
  poets : String
deriving Repr, DecidableEq

/-- The sqlite database state visible to `SaveUser` (first revision):
the `users` and `feed` tables and the next rowid to be assigned. -/
structure DB where
  users : List UserRow
  feeds : List FeedRow
  nextId : Int
deriving Repr, DecidableEq

/-- Error kinds surfaced by the storage layer.  `userExists` is
`storage.ErrUserExists` whose message is "user already exists";
`appNotFound` is `storage.ErrAppNotFound`; the remaining constructors stand
for the wrapped driver errors of the individual statements. -/
inductive StorageErr where
  | userExists : StorageErr
  | userNotFound : StorageErr
  | appNotFound : StorageErr
  | feedUpdateFailed : StorageErr
  | feedInsertFailed : StorageErr
  | execError : StorageErr
deriving Repr, DecidableEq

/-- Injectable failures of the statements `SaveUser` runs after the initial
user insert (the sqlite driver can fail any `ExecContext` call). -/
structure Faults where
  updateFeedFails : Bool
  insertFeedFails : Bool
deriving Repr, DecidableEq

/-- No injected failure: every statement after the initial insert succeeds. -/
def noFaults : Faults := ⟨false, false⟩

/-- `json.Marshal` of the seeded authors map (Go marshals map keys sorted). -/
def authorsJson : String :=
  "\x7b\"1001\":false,\"1002\":false,\"1003\":false,\"1004\":false\x7d"

/-- `json.Marshal` of the seeded articles map. -/
def articlesJson : String := "\x7b\"2001\":false,\"2002\":false\x7d"

/-- `json.Marshal` of the seeded poets map. -/
def poetsJson : String := "\x7b\"3001\":false,\"3002\":false\x7d"

/-- `Storage.SaveUser` (first revision): returns the updated database, the
id `LastInsertId` reported, and the error (`none` = nil). -/
def SaveUser (db : DB) (f : Faults) (phone : String) (passHash : BcryptHash) :
    DB × Int × Option StorageErr :=
  if db.users.any (fun u => u.phone == phone) then
    (db, 0, some .userExists)
  else
    let id := db.nextId
    let users1 := db.users ++ [⟨id, phone, passHash, 0⟩]
    if f.updateFeedFails then
      ({ users := users1, feeds := db.feeds, nextId := id + 1 }, id, some .feedUpdateFailed)
    else
      let users2 := users1.map (fun u => if u.phone == phone then { u with feed := id } else u)
      if f.insertFeedFails then
        ({ users := users2, feeds := db.feeds, nextId := id + 1 }, id, some .feedInsertFailed)
      else
        ({ users := users2,
           feeds := db.feeds ++ [⟨id, authorsJson, articlesJson, poetsJson⟩],
           nextId := id + 1 }, id, none)

/-- `Storage.User`: `SELECT id, phone, pass_hash, feed FROM users WHERE
phone = ?`; `sql.ErrNoRows` maps to `storage.ErrUserNotFound`. -/
def StorageUser (db : DB) (phone : String) : Except StorageErr UserRow :=
  match db.users.find? (fun u => u.phone == phone) with
  | none => .error .userNotFound
  | some u => .ok u

/-! ## Tenant registry (`apps` table and `Storage.App`) -/

/-- A row of the `apps` table: `id INTEGER PRIMARY KEY, name TEXT, secret
TEXT` (migrations/1_init.up.sql). -/
structure AppRow where
  id : Int
  name : String
  secret : String
deriving Repr, DecidableEq

/-- `models.App` as the code reads it: `row.Scan(&app.Name, &app.Secret)`. -/
structure ModelsApp where
  name : String
  secret : String
deriving Repr, DecidableEq

/-- `Storage.App`: `SELECT name, secret FROM apps` with no WHERE clause and
no app-id parameter; `QueryRowContext` yields the first row of the table,
and `sql.ErrNoRows` (empty table) maps to `storage.ErrAppNotFound`. -/
def StorageApp (apps : List AppRow) : Except StorageErr ModelsApp :=
  match apps with
  | [] => .error .appNotFound
  | a :: _ => .ok ⟨a.name, a.secret⟩

/-- What a caller resolving the signing secret for a given tenant id
obtains from the storage layer: `Storage.App` ignores the identifier. -/
def resolveSecret (apps : List AppRow) (appID : Int) : Except StorageErr ModelsApp :=
  StorageApp apps

/-- Written from the words of the specification, for comparison with
`resolveSecret`: `secretFor(tenantId) -> Secret`, failing with
`TenantNotFound` when no tenant with that identifier exists. -/
def secretForSpec (apps : List AppRow) (appID : Int) : Except StorageErr ModelsApp :=
  match apps.find? (fun a => a.id == appID) with
  | none => .error .appNotFound
  | some a => .ok ⟨a.name, a.secret⟩

/-! ## Auth service (`internal/services/auth/auth.go`) -/

/-- Errors returned by the registration path: the wrapped bcrypt error or
the wrapped storage error (`auth.RegisterNewUser` wraps both with its `op`
prefix and returns id 0 alongside them). -/
inductive RegisterErr where
  | hashError : BcryptErr → RegisterErr
  | storageError : StorageErr → RegisterErr
deriving Repr, DecidableEq

/-- `Auth.RegisterNewUser`: hashes the password with
`bcrypt.GenerateFromPassword([]byte(password), bcrypt.DefaultCost)` and
persists via `UserSaver.SaveUser`; on any error it returns id 0 with the
wrapped error, otherwise the id the store assigned.  The entropy-source
salt and the injectable storage faults are explicit parameters. -/
def RegisterNewUser (db : DB) (f : Faults) (salt : Nat) (phone password : String) :
    DB × Int × Option RegisterErr :=
  match bcryptGenerateFromPassword salt (goBytes password) bcryptDefaultCost with
  | .error e => (db, 0, some (.hashError e))
  | .ok h =>
    match SaveUser db f phone h with
    | (db1, _, some e) => (db1, 0, some (.storageError e))
    | (db1, id, none) => (db1, id, none)

/-! ## Spec-modelled request layer and token issuer

The body of `Auth.Login`, the token-building helper it calls and the gRPC
request-validation layer (`internal/grpc/auth`) are only declared in the
sources at hand (`Auth.Login` is a stub and `grpcapp.New` references the
missing package), so they are modelled from the specification. -/

/-- Error taxonomy of the auth endpoints, following the specification:
`ValidationError`, `InvalidCredentials` and `TenantNotFound`, each with its
stable human-readable message where the spec fixes one. -/
inductive AuthErr where
  | validationError : String → AuthErr
  | invalidCredentials : String → AuthErr
  | tenantNotFound : AuthErr
deriving Repr, DecidableEq

/-- Modelled from the spec: the request-validation layer in front of
`RegisterNewUser` (the gRPC server package `internal/grpc/auth`, absent
from the sources).  Validates the identity key non-empty, then the
password non-empty, then delegates to the service. -/
def registerEndpoint (db : DB) (f : Faults) (salt : Nat) (phone password : String) :
    DB × Int × Option (AuthErr ⊕ RegisterErr) :=
  if phone = "" then (db, 0, some (.inl (.validationError "identity is required")))
  else if password = "" then (db, 0, some (.inl (.validationError "password is required")))
  else
    match RegisterNewUser db f salt phone password with
    | (db1, id, none) => (db1, id, none)
    | (db1, id, some e) => (db1, id, some (.inr e))

/-- The claims carried by a session token:
`sub` (subject id), the identity key, the issuing tenant id and the
absolute expiry instant `exp = now + ttl` (Unix seconds). -/
structure Claims where
  sub : Int
  identityKey : String
  tenantId : Int
  exp : Int
deriving Repr, DecidableEq

/-- A signed session token, with an ideal symmetric MAC: the signature
records the signing secret and the signed payload, and verification checks
both against the presented secret and the carried claims. -/
structure SToken where
  claims : Claims
  sigSecret : String
  sigPayload : Claims
deriving Repr, DecidableEq

/-- Modelled from the spec: `issue(subjectId, identityKey, tenantId,
secret, ttl)` builds the claims `{sub, identityKey, tenantId, exp := now +
ttl}` and signs them with the supplied secret (the token-building helper
called by `Auth.Login` is absent from the sources). -/
def issueToken (sub : Int) (identityKey : String) (tenantId : Int)
    (secret : String) (now ttl : Int) : SToken :=
  let c : Claims := ⟨sub, identityKey, tenantId, now + ttl⟩
  ⟨c, secret, c⟩

/-- Modelled from the spec: `validate(token, secret)` verifies the MAC and
then checks `exp > now`; any signature mismatch, payload mismatch or expiry
violation yields `none` (Invalid). -/
def validateToken (t : SToken) (secret : String) (now : Int) : Option Claims :=
  if t.sigSecret == secret && t.sigPayload == t.claims && now < t.claims.exp then
    some t.claims
  else
    none

/-- Modelled from the spec: `Login(identityKey, plaintext, tenantId)`
(the body of `Auth.Login` is a stub in the sources).  Validates identity,
password and tenant id in that order, looks up the credential, maps both
lookup miss and password mismatch to the same generic
`InvalidCredentials("invalid identity or password")`, resolves the tenant
secret fresh from the registry and issues the token. -/
def Login (db : DB) (apps : List AppRow) (phone password : String) (appID : Int)
    (now ttl : Int) : Except AuthErr SToken :=
  if phone = "" then .error (.validationError "identity is required")
  else if password = "" then .error (.validationError "password is required")
  else if appID = 0 then .error (.validationError "app_id is required")
  else
    match db.users.find? (fun u => u.phone == phone) with
    | none => .error (.invalidCredentials "invalid identity or password")
    | some u =>
      if bcryptCompareHashAndPassword u.passHash (goBytes password) then
        match secretForSpec apps appID with
        | .error _ => .error .tenantNotFound
        | .ok app => .ok (issueToken u.id phone appID app.secret now ttl)
      else
        .error (.invalidCredentials "invalid identity or password")

/-! ## Authorization middleware (`internal/app/rest/app.go`)

`App.AuthMiddleware` rejects an empty `Authorization` header with 401,
strips the `Bearer ` prefix, parses the token with `jwt.Parse` keyed by the
hard-coded secret `"test-secret"`, turns any parse error into a 401 whose
body embeds the error text, requires a numeric `uid` claim, and only then
invokes the wrapped handler with the extracted uid. -/

/-- A JSON claim value as `jwt.MapClaims` yields it: numbers arrive as
`float64` (here the integral values the system uses) or strings. -/
inductive ClaimVal where
  | num : Int → ClaimVal
  | str : String → ClaimVal
deriving Repr, DecidableEq

/-- `jwt.MapClaims`: a key-to-value map of claims. -/
abbrev MapClaims := List (String × ClaimVal)

/-- Map lookup on claims. -/
def lookupClaim (c : MapClaims) (k : String) : Option ClaimVal :=
  (c.find? (fun p => p.1 == k)).map (fun p => p.2)

/-- The content of the bearer token string after stripping the scheme
prefix: either not a well-formed JWT at all, or a JWT carrying claims and
signed with some secret. -/
inductive TokenStr where
  | malformed : TokenStr
  | signed : MapClaims → String → TokenStr
deriving Repr, DecidableEq

/-- `jwt.Parse(tokenString, keyfunc)` of `golang-jwt/jwt/v5` keyed by
`keySecret` at time `now`: a malformed string fails with
`jwt.ErrTokenMalformed` ("token is malformed"); a signature made with a
different secret fails with `jwt.ErrTokenSignatureInvalid` ("token
signature is invalid"); with a valid signature the registered `exp` claim
is validated and an elapsed expiry fails with the wrapped
`jwt.ErrTokenExpired` ("token has invalid claims: token is expired"). -/
def jwtParse (keySecret : String) (now : Int) : TokenStr → Except String MapClaims
  | .malformed => .error "token is malformed"
  | .signed c s =>
    if s ≠ keySecret then .error "token signature is invalid"
    else
      match lookupClaim c "exp" with
      | some (.num e) =>
        if e ≤ now then .error "token has invalid claims: token is expired" else .ok c
      | _ => .ok c

/-- The observable outcome of the middleware on one request: either an
error response written with `http.Error` (status and body) without calling
the wrapped handler, or the wrapped handler invoked with the extracted
uid stashed in the request context. -/
inductive MwResult where
  | denied : Nat → String → MwResult
  | passed : Int → MwResult
deriving Repr, DecidableEq

/-- `App.AuthMiddleware`: the `Authorization` header is `none` when empty,
otherwise it carries the (scheme-stripped) token content. -/
def AuthMiddleware (authHeader : Option TokenStr) (now : Int) : MwResult :=
  match authHeader with
  | none => .denied 401 "Authorization header is missing"
  | some t =>
    match jwtParse "test-secret" now t with
    | .error e => .denied 401 ("Failed to parse JWT token: " ++ e)
    | .ok claims =>
      match lookupClaim claims "uid" with
      | some (.num u) => .passed u
      | _ => .denied 401 "UID not found in JWT token claims"

/-! ## Credential store, second revision (`src/unnamed/part_001`)

This `SaveUser` inserts the user row (choosing a random seeded name and
image), then — outside any transaction — inserts one link row per catalog
entry into `authors`, `articles` and `poets` for the new user, returning
the assigned id with a non-nil error as soon as one of those inserts
fails. -/

/-- A row of the `users` table in the second schema revision. -/
structure UserRowB where
  id : Int
  phone : String
  passHash : BcryptHash
  name : String
  image : String
deriving Repr, DecidableEq

/-- A per-user link row of the `authors`/`articles`/`poets` tables:
`(userId, itemId, isFave)`. -/
structure LinkRow where
  userId : Int
  itemId : Int
  isFave : Bool
deriving Repr, DecidableEq

/-- The sqlite database state visible to the second-revision `SaveUser`:
the `users` table, the id columns of the `author`/`article`/`poet`
catalogs, the three per-user link tables and the next rowid. -/
structure DBB where
  users : List UserRowB
  authorCat : List Int
  articleCat : List Int
  poetCat : List Int
  userAuthors : List LinkRow
  userArticles : List LinkRow
  userPoets : List LinkRow
  nextId : Int
deriving Repr, DecidableEq

/-- The seeded display names keyed by the random draw (Go map indexing
returns the zero value on a missing key). -/
def authorsName (k : Nat) : String :=
  if k = 0 then "Фёдор Достоевский"
  else if k = 1 then "Антон Чехов"
  else if k = 2 then "Лев Толстой"
  else ""

/-- The seeded image URLs keyed by the random draw. -/
def authorsImage (k : Nat) : String :=
  if k = 0 then "https://iili.io/JwdlbqJ.png"
  else if k = 1 then "https://iili.io/Jwdlg0x.png"
  else if k = 2 then "https://iili.io/Jwdl6JV.png"
  else ""

/-- One of the seeding loops of the second-revision `SaveUser`: inserts a
link row for each catalog id in order, returning early when the driver
fails an insert.  `faults k` tells whether the k-th seeding insert of the
whole call fails; the result is the updated link table, the next insert
counter and whether the loop stopped on a failure. -/
def insertLinks (uid : Int) (ids : List Int) (faults : Nat → Bool) (k : Nat)
    (acc : List LinkRow) : List LinkRow × Nat × Bool :=
  match ids with
  | [] => (acc, k, false)
  | i :: rest =>
    if faults k then (acc, k, true)
    else insertLinks uid rest faults (k + 1) (acc ++ [⟨uid, i, false⟩])

/-- `Storage.SaveUser` (second revision): reads the catalogs, inserts the
user row (mapping a unique-constraint violation to `storage.ErrUserExists`
with id 0), then seeds the author, article and poet link rows in that
order, returning the assigned id together with the wrapped driver error as
soon as a seeding insert fails. -/
def SaveUserB (db : DBB) (faults : Nat → Bool) (randomKey : Nat)
    (phone : String) (passHash : BcryptHash) : DBB × Int × Option StorageErr :=
  if db.users.any (fun u => u.phone == phone) then
    (db, 0, some .userExists)
  else
    let id := db.nextId
    let users1 := db.users ++ [⟨id, phone, passHash, authorsName randomKey, authorsImage randomKey⟩]
    let ra := insertLinks id db.authorCat faults 0 db.userAuthors
    if ra.2.2 then
      ({ db with users := users1, userAuthors := ra.1, nextId := id + 1 }, id, some .execError)
    else
      let rb := insertLinks id db.articleCat faults ra.2.1 db.userArticles
      if rb.2.2 then
        ({ db with
            users := users1,
            userAuthors := ra.1,
            userArticles := rb.1,
            nextId := id + 1 }, id, some .execError)
      else
        let rc := insertLinks id db.poetCat faults rb.2.1 db.userPoets
        if rc.2.2 then
          ({ db with
              users := users1,
              userAuthors := ra.1,
              userArticles := rb.1,
              userPoets := rc.1,
              nextId := id + 1 }, id, some .execError)
        else
          ({ db with
              users := users1,
              userAuthors := ra.1,
              userArticles := rb.1,
              userPoets := rc.1,
              nextId := id + 1 }, id, none)

/-- A concrete 73-character ASCII password (73 UTF-8 bytes). -/
def longPassword : String := String.mk (List.replicate 73 'a')

/-! ## Theorems -/

/-- Claim C7, counterexample: with a single tenant of id 1 in the registry,
resolving the secret for the absent tenant id 2 returns tenant 1's secret
instead of failing with `TenantNotFound`, because `Storage.App` queries the
`apps` table without a WHERE clause; the result differs from the
specification's `secretFor`. -/
theorem app_secret_ignores_tenant_id :
    resolveSecret [⟨1, "app", "s1"⟩] 2 = .ok ⟨"app", "s1"⟩ ∧
    secretForSpec [⟨1, "app", "s1"⟩] 2 = .error .appNotFound ∧
    resolveSecret [⟨1, "app", "s1"⟩] 2 ≠ secretForSpec [⟨1, "app", "s1"⟩] 2 := by
  decide

/-- Claim C7, amended: resolving the signing secret ignores the requested
tenant identifier entirely — it returns the first row of the `apps` table
for every identifier, yields the same result for any two identifiers, and
fails with `TenantNotFound` exactly when the `apps` table is empty. -/
theorem app_secret_first_row (a : AppRow) (rest apps : List AppRow) (appID appID2 : Int) :
    resolveSecret (a :: rest) appID = .ok ⟨a.name, a.secret⟩ ∧
    resolveSecret ([] : List AppRow) appID = .error .appNotFound ∧
    resolveSecret apps appID = resolveSecret apps appID2 :=
  ⟨rfl, rfl, rfl⟩

/-- Claim C9: a request whose `Authorization` header is absent is answered
401 Unauthorized with the wrapped handler never invoked, and whenever the
middleware does invoke the handler, the token was parsed successfully under
the configured secret and carried a numeric `uid` claim equal to the uid
the handler receives. -/
theorem middleware_requires_header_and_uid (now : Int) :
    AuthMiddleware none now = .denied 401 "Authorization header is missing" ∧
    (∀ header uid, AuthMiddleware header now = .passed uid →
      ∃ t claims, header = some t ∧ jwtParse "test-secret" now t = .ok claims ∧
        lookupClaim claims "uid" = some (.num uid)) := by
  constructor
  · rfl
  · intro header uid h
    cases header with
    | none => simp [AuthMiddleware] at h
    | some t =>
      refine ⟨t, ?_⟩
      cases hp : jwtParse "test-secret" now t with
      | error e => simp [AuthMiddleware, hp] at h
      | ok claims =>
        cases hc : lookupClaim claims "uid" with
        | none => simp [AuthMiddleware, hp, hc] at h
        | some v =>
          cases v with
          | num u =>
            simp only [AuthMiddleware, hp, hc, MwResult.passed.injEq] at h
            subst h
            exact ⟨claims, rfl, rfl, hc⟩
          | str s => simp [AuthMiddleware, hp, hc] at h

/-- Claim C9, witness: instantiating the gate property on a concrete
well-signed token with uid 5. -/
theorem middleware_requires_header_and_uid_witness :
    ∃ t claims,
      (some (TokenStr.signed [("uid", ClaimVal.num 5)] "test-secret") : Option TokenStr) = some t ∧
      jwtParse "test-secret" 0 t = .ok claims ∧
      lookupClaim claims "uid" = some (.num 5) :=
  (middleware_requires_header_and_uid 0).2
    (some (.signed [("uid", .num 5)] "test-secret")) 5 (by decide)

/-- Claim C3: validating a freshly issued token with the correct secret at
any instant before its expiry succeeds and recovers the issued claims
exactly — the recovered `sub` is the subject id and the recovered
`identityKey` is the identity key. -/
theorem token_issue_validate_roundtrip (sub : Int) (identityKey : String)
    (tenantId : Int) (secret : String) (now ttl t : Int) (h : t < now + ttl) :
    ∃ c, validateToken (issueToken sub identityKey tenantId secret now ttl) secret t = some c ∧
      c.sub = sub ∧ c.identityKey = identityKey := by
  refine ⟨⟨sub, identityKey, tenantId, now + ttl⟩, ?_, rfl, rfl⟩
  simp [validateToken, issueToken, h]

/-- Claim C3, witness: the round trip at subject 7, identity "+79990000000",
tenant 1, issuance time 1000, ttl 3600, validated at time 2000. -/
theorem token_issue_validate_roundtrip_witness :
    ∃ c, validateToken (issueToken 7 "+79990000000" 1 "test-secret" 1000 3600) "test-secret" 2000 =
        some c ∧ c.sub = 7 ∧ c.identityKey = "+79990000000" :=
  token_issue_validate_roundtrip 7 "+79990000000" 1 "test-secret" 1000 3600 2000 (by decide)

/-- Claim C5: `Login` validates in a fixed order before touching the
credential store — empty identity yields `ValidationError("identity is
required")`; otherwise an empty password yields `ValidationError("password
is required")`; otherwise a zero tenant id yields `ValidationError("app_id
is required")`.  Each outcome is the same for every store state `db`. -/
theorem login_validation_order (db : DB) (apps : List AppRow)
    (phone password : String) (appID : Int) (now ttl : Int) :
    (phone = "" → Login db apps phone password appID now ttl =
      .error (.validationError "identity is required")) ∧
    (phone ≠ "" → password = "" → Login db apps phone password appID now ttl =
      .error (.validationError "password is required")) ∧
    (phone ≠ "" → password ≠ "" → appID = 0 → Login db apps phone password appID now ttl =
      .error (.validationError "app_id is required")) := by
  refine ⟨fun h1 => ?_, fun h1 h2 => ?_, fun h1 h2 h3 => ?_⟩ <;>
    simp [Login, *]

/-- Claim C5, witness: the three validation outcomes at concrete inputs. -/
theorem login_validation_order_witness :
    Login ⟨[], [], 1⟩ [] "" "pw" 1 0 3600 =
      .error (.validationError "identity is required") ∧
    Login ⟨[], [], 1⟩ [] "+7" "" 1 0 3600 =
      .error (.validationError "password is required") ∧
    Login ⟨[], [], 1⟩ [] "+7" "pw" 0 0 3600 =
      .error (.validationError "app_id is required") :=
  ⟨(login_validation_order ⟨[], [], 1⟩ [] "" "pw" 1 0 3600).1 rfl,
   (login_validation_order ⟨[], [], 1⟩ [] "+7" "" 1 0 3600).2.1 (by decide) rfl,
   (login_validation_order ⟨[], [], 1⟩ [] "+7" "pw" 0 0 3600).2.2 (by decide) (by decide) rfl⟩

/-- Claim C4: a Register call with an empty identity key or an empty
password fails with a `ValidationError` and persists nothing — the store
state returned is exactly the input state and the returned id is 0. -/
theorem register_empty_input_rejected_store_unchanged (db : DB) (f : Faults)
    (salt : Nat) (phone password : String) (h : phone = "" ∨ password = "") :
    registerEndpoint db f salt phone password =
      (db, 0, some (.inl (.validationError
        (if phone = "" then "identity is required" else "password is required")))) := by
  rcases h with h | h
  · simp [registerEndpoint, h]
  · by_cases hp : phone = "" <;> simp [registerEndpoint, h, hp]

/-- Claim C4, witness: empty identity with a non-empty password on an empty
store. -/
theorem register_empty_input_rejected_store_unchanged_witness :
    registerEndpoint ⟨[], [], 1⟩ noFaults 0 "" "password" =
      (⟨[], [], 1⟩, 0, some (.inl (.validationError "identity is required"))) := by
  have h := register_empty_input_rejected_store_unchanged ⟨[], [], 1⟩ noFaults 0 "" "password"
    (Or.inl rfl)
  simpa using h

/-- Claim C2: once past input validation, a login against an unknown
identity key and a login against a registered identity key with a wrong
password produce the one identical error value
`InvalidCredentials("invalid identity or password")`, so the two failure
causes are observationally indistinguishable to the caller. -/
theorem login_invalid_credentials_uniform (db : DB) (apps : List AppRow)
    (phone password : String) (appID : Int) (now ttl : Int) (u : UserRow)
    (hphone : phone ≠ "") (hpass : password ≠ "") (happ : appID ≠ 0) :
    (db.users.find? (fun v => v.phone == phone) = none →
      Login db apps phone password appID now ttl =
        .error (.invalidCredentials "invalid identity or password")) ∧
    (db.users.find? (fun v => v.phone == phone) = some u →
      u.passHash.key ≠ goBytes password →
      Login db apps phone password appID now ttl =
        .error (.invalidCredentials "invalid identity or password")) := by
  constructor
  · intro hfind
    simp [Login, hphone, hpass, happ, hfind]
  · intro hfind hneq
    simp [Login, hphone, hpass, happ, hfind, bcryptCompareHashAndPassword, hneq]

/-- Claim C2, witness: a store holding one user registered under
"+70000000001" with password "correct"; logging in as the unknown
"+79990000000" and logging in as "+70000000001" with the wrong password
"wrong" return the identical error. -/
theorem login_invalid_credentials_uniform_witness :
    Login ⟨[⟨1, "+70000000001", ⟨10, 0, goBytes "correct"⟩, 0⟩], [], 2⟩ []
        "+79990000000" "pw" 1 0 3600 =
      .error (.invalidCredentials "invalid identity or password") ∧
    Login ⟨[⟨1, "+70000000001", ⟨10, 0, goBytes "correct"⟩, 0⟩], [], 2⟩ []
        "+70000000001" "wrong" 1 0 3600 =
      .error (.invalidCredentials "invalid identity or password") :=
  ⟨(login_invalid_credentials_uniform ⟨[⟨1, "+70000000001", ⟨10, 0, goBytes "correct"⟩, 0⟩], [], 2⟩
      [] "+79990000000" "pw" 1 0 3600 ⟨1, "+70000000001", ⟨10, 0, goBytes "correct"⟩, 0⟩
      (by decide) (by decide) (by decide)).1 (by decide),
   (login_invalid_credentials_uniform ⟨[⟨1, "+70000000001", ⟨10, 0, goBytes "correct"⟩, 0⟩], [], 2⟩
      [] "+70000000001" "wrong" 1 0 3600 ⟨1, "+70000000001", ⟨10, 0, goBytes "correct"⟩, 0⟩
      (by decide) (by decide) (by decide)).2 (by decide) (by decide)⟩

/-- Claim C6, counterexample: the middleware's 401 responses for a
wrong-secret signature and for an expired token (and for a malformed one)
carry different bodies, so the failure modes are observably distinguishable
to the caller, contradicting the claimed indistinguishability. -/
theorem middleware_error_bodies_differ :
    AuthMiddleware (some (.signed [("uid", .num 1)] "wrong-secret")) 100 =
      .denied 401 "Failed to parse JWT token: token signature is invalid" ∧
    AuthMiddleware (some (.signed [("uid", .num 1), ("exp", .num 50)] "test-secret")) 100 =
      .denied 401 "Failed to parse JWT token: token has invalid claims: token is expired" ∧
    AuthMiddleware (some .malformed) 100 =
      .denied 401 "Failed to parse JWT token: token is malformed" ∧
    AuthMiddleware (some (.signed [("uid", .num 1)] "wrong-secret")) 100 ≠
      AuthMiddleware (some (.signed [("uid", .num 1), ("exp", .num 50)] "test-secret")) 100 := by
  decide

/-- Claim C6, amended: a wrong-secret signature, a malformed payload and an
elapsed expiry each make the middleware reject the request with the same
401 Unauthorized status and the handler is never invoked, but the three
response bodies name the failure mode and therefore differ. -/
theorem middleware_invalid_token_cases (claims : MapClaims) (s : String) (e now : Int) :
    AuthMiddleware (some .malformed) now =
      .denied 401 "Failed to parse JWT token: token is malformed" ∧
    (s ≠ "test-secret" → AuthMiddleware (some (.signed claims s)) now =
      .denied 401 "Failed to parse JWT token: token signature is invalid") ∧
    (lookupClaim claims "exp" = some (.num e) → e ≤ now →
      AuthMiddleware (some (.signed claims "test-secret")) now =
      .denied 401 "Failed to parse JWT token: token has invalid claims: token is expired") := by
  refine ⟨rfl, fun hs => ?_, fun hexp hle => ?_⟩
  · simp [AuthMiddleware, jwtParse, hs]
  · simp [AuthMiddleware, jwtParse, hexp, hle]

/-- Claim C6, witness: the three rejection cases at concrete tokens and
time 100. -/
theorem middleware_invalid_token_cases_witness :
    AuthMiddleware (some .malformed) 100 =
      .denied 401 "Failed to parse JWT token: token is malformed" ∧
    AuthMiddleware (some (.signed [("exp", .num 50)] "wrong-secret")) 100 =
      .denied 401 "Failed to parse JWT token: token signature is invalid" ∧
    AuthMiddleware (some (.signed [("exp", .num 50)] "test-secret")) 100 =
      .denied 401 "Failed to parse JWT token: token has invalid claims: token is expired" :=
  ⟨(middleware_invalid_token_cases [("exp", .num 50)] "wrong-secret" 50 100).1,
   (middleware_invalid_token_cases [("exp", .num 50)] "wrong-secret" 50 100).2.1 (by decide),
   (middleware_invalid_token_cases [("exp", .num 50)] "test-secret" 50 100).2.2
     (by decide) (by decide)⟩

/-- Claim C8, counterexample: bcrypt's `GenerateFromPassword` rejects the
73-byte password outright, so the password-hashing step of registration
fails because of the plaintext's length alone, and the registration call
surfaces that error. -/
theorem bcrypt_rejects_long_password :
    bcryptGenerateFromPassword 0 (goBytes longPassword) bcryptDefaultCost =
      .error .passwordTooLong ∧
    RegisterNewUser ⟨[], [], 1⟩ noFaults 0 "+70000000001" longPassword =
      (⟨[], [], 1⟩, 0, some (.hashError .passwordTooLong)) := by
  decide

/-- Claim C8, amended: the password-hashing step succeeds for every
plaintext of at most 72 bytes — registration never fails because of the
content of such a plaintext — and fails with `ErrPasswordTooLong` exactly
when the plaintext exceeds 72 bytes, a failure registration surfaces with
id 0 and no store change. -/
theorem bcrypt_succeeds_iff_short (salt cost : Nat) (password : List Nat)
    (db : DB) (f : Faults) (phone pw : String) :
    (password.length ≤ 72 → ∃ h, bcryptGenerateFromPassword salt password cost = .ok h) ∧
    (72 < password.length → bcryptGenerateFromPassword salt password cost =
      .error .passwordTooLong) ∧
    (72 < (goBytes pw).length → RegisterNewUser db f salt phone pw =
      (db, 0, some (.hashError .passwordTooLong))) := by
  refine ⟨fun hle => ?_, fun hlt => ?_, fun hlt => ?_⟩
  · refine ⟨⟨if cost < 4 then bcryptDefaultCost else cost, salt, password⟩, ?_⟩
    simp [bcryptGenerateFromPassword, Nat.not_lt.mpr hle]
  · simp [bcryptGenerateFromPassword, hlt]
  · simp [RegisterNewUser, bcryptGenerateFromPassword, hlt]

/-- Claim C8, witness: a 72-byte password hashes successfully and the
73-byte password is rejected, also through registration. -/
theorem bcrypt_succeeds_iff_short_witness :
    (∃ h, bcryptGenerateFromPassword 0 (List.replicate 72 97) bcryptDefaultCost = .ok h) ∧
    bcryptGenerateFromPassword 0 (List.replicate 73 97) bcryptDefaultCost =
      .error .passwordTooLong ∧
    RegisterNewUser ⟨[], [], 1⟩ noFaults 0 "+70000000002" longPassword =
      (⟨[], [], 1⟩, 0, some (.hashError .passwordTooLong)) :=
  ⟨(bcrypt_succeeds_iff_short 0 bcryptDefaultCost (List.replicate 72 97)
      ⟨[], [], 1⟩ noFaults "+70000000002" longPassword).1 (by decide),
   (bcrypt_succeeds_iff_short 0 bcryptDefaultCost (List.replicate 73 97)
      ⟨[], [], 1⟩ noFaults "+70000000002" longPassword).2.1 (by decide),
   (bcrypt_succeeds_iff_short 0 bcryptDefaultCost (List.replicate 73 97)
      ⟨[], [], 1⟩ noFaults "+70000000002" longPassword).2.2 (by decide)⟩

/-- Claim C1, counterexample: for the fresh identity "+70000000001" and the
non-empty 73-character password, already the first Register call fails
(bcrypt rejects the plaintext), so the claim's universal success of the
first call does not hold for every non-empty password. -/
theorem register_long_password_breaks_first_call :
    longPassword ≠ "" ∧
    (RegisterNewUser ⟨[], [], 1⟩ noFaults 0 "+70000000001" longPassword).2.2 ≠ none := by
  decide

/-- After the first registration, the stored users list (the appended row
with its feed column updated) still contains a row with the registered
phone, so a second insert of the same phone hits the unique constraint. -/
theorem wr_seed_any (l : List UserRow) (phone : String) (idv : Int) (row : UserRow)
    (hrow : row.phone = phone) :
    (((l ++ [row]).map (fun u => if u.phone == phone then { u with feed := idv } else u)).any
      (fun u => u.phone == phone)) = true := by
  rw [List.any_eq_true]
  refine ⟨if row.phone == phone then { row with feed := idv } else row,
    List.mem_map_of_mem _ (by simp), ?_⟩
  simp [hrow]

/-- Claim C1, amended: for every identity key and non-empty password of at
most 72 bytes, a first Register call on a store not containing the
identity succeeds and returns the newly assigned subject id, and a second
Register call with the same identity key fails with
`AlreadyExists("user already exists")` and returns id 0 alongside the
error. -/
theorem register_duplicate_second_fails (db : DB) (salt1 salt2 : Nat)
    (phone password : String) (hpw : password ≠ "")
    (hlen : (goBytes password).length ≤ 72)
    (hfresh : db.users.any (fun u => u.phone == phone) = false)
    (hid : 0 < db.nextId) :
    (RegisterNewUser db noFaults salt1 phone password).2.2 = none ∧
    (RegisterNewUser db noFaults salt1 phone password).2.1 = db.nextId ∧
    0 < (RegisterNewUser db noFaults salt1 phone password).2.1 ∧
    (RegisterNewUser (RegisterNewUser db noFaults salt1 phone password).1
        noFaults salt2 phone password).2.1 = 0 ∧
    (RegisterNewUser (RegisterNewUser db noFaults salt1 phone password).1
        noFaults salt2 phone password).2.2 = some (.storageError .userExists) := by
  have hgen : ∀ s : Nat, bcryptGenerateFromPassword s (goBytes password) bcryptDefaultCost =
      .ok ⟨bcryptDefaultCost, s, goBytes password⟩ := fun s => by
    simp [bcryptGenerateFromPassword, Nat.not_lt.mpr hlen]
  have hany := wr_seed_any db.users phone db.nextId
      ⟨db.nextId, phone, ⟨bcryptDefaultCost, salt1, goBytes password⟩, 0⟩ rfl
  have hreg1 : RegisterNewUser db noFaults salt1 phone password =
      ({ users := (db.users ++
           [(⟨db.nextId, phone, ⟨bcryptDefaultCost, salt1, goBytes password⟩, 0⟩ : UserRow)]).map
           (fun u => if u.phone == phone then { u with feed := db.nextId } else u),
         feeds := db.feeds ++ [⟨db.nextId, authorsJson, articlesJson, poetsJson⟩],
         nextId := db.nextId + 1 }, db.nextId, none) := by
    simp only [RegisterNewUser, hgen, SaveUser, hfresh, noFaults]
    rfl
  rw [hreg1]
  refine ⟨rfl, rfl, hid, ?_, ?_⟩ <;>
    simp only [RegisterNewUser, hgen, SaveUser, hany] <;> rfl

/-- Claim C1, witness: registering "+70000000001" with the password
"correct-horse" on the empty store succeeds with id 1, and the duplicate
registration returns id 0 with the user-exists error. -/
theorem register_duplicate_second_fails_witness :
    (RegisterNewUser ⟨[], [], 1⟩ noFaults 0 "+70000000001" "correct-horse").2.2 = none ∧
    (RegisterNewUser ⟨[], [], 1⟩ noFaults 0 "+70000000001" "correct-horse").2.1 = 1 ∧
    0 < (RegisterNewUser ⟨[], [], 1⟩ noFaults 0 "+70000000001" "correct-horse").2.1 ∧
    (RegisterNewUser (RegisterNewUser ⟨[], [], 1⟩ noFaults 0 "+70000000001" "correct-horse").1
        noFaults 1 "+70000000001" "correct-horse").2.1 = 0 ∧
    (RegisterNewUser (RegisterNewUser ⟨[], [], 1⟩ noFaults 0 "+70000000001" "correct-horse").1
        noFaults 1 "+70000000001" "correct-horse").2.2 = some (.storageError .userExists) :=
  register_duplicate_second_fails ⟨[], [], 1⟩ 0 1 "+70000000001" "correct-horse"
    (by decide) (by decide) (by decide) (by decide)

/-- When a seeding loop of the second-revision `SaveUser` reports no
failure, no insert in its counter range was faulted and the counter
advanced by exactly the number of catalog ids. -/
theorem insertLinks_no_fail (uid : Int) (faults : Nat → Bool) :
    ∀ (ids : List Int) (k : Nat) (acc : List LinkRow),
      (insertLinks uid ids faults k acc).2.2 = false →
      (∀ j, j < ids.length → faults (k + j) = false) ∧
      (insertLinks uid ids faults k acc).2.1 = k + ids.length := by
  intro ids
  induction ids with
  | nil =>
    intro k acc _
    exact ⟨fun j hj => absurd hj (Nat.not_lt_zero j), by simp [insertLinks]⟩
  | cons i rest ih =>
    intro k acc h
    by_cases hf : faults k = true
    · simp [insertLinks, hf] at h
    · have hf' : faults k = false := by simpa using hf
      rw [insertLinks] at h ⊢
      simp only [hf', Bool.false_eq_true, if_false] at h ⊢
      obtain ⟨hall, hcount⟩ := ih (k + 1) (acc ++ [⟨uid, i, false⟩]) h
      refine ⟨?_, ?_⟩
      · intro j hj
        cases j with
        | zero => simpa using hf'
        | succ m =>
          have heq : k + (m + 1) = (k + 1) + m := by omega
          rw [heq]
          exact hall m (by simpa [Nat.succ_lt_succ_iff] using hj)
      · rw [hcount, List.length_cons]
        omega

/-- Claim C10: `SaveUser` is atomic only for the initial user-row insert.
A uniqueness violation there returns id 0 with `ErrUserExists` and leaves
the store unchanged (both storage revisions); but when any subsequent
seeding write fails — the feed update or feed insert of the first
revision, or any per-user author/article/poet link insert of the second —
`SaveUser` returns the newly assigned non-zero id together with a non-nil
error while the already-written rows, including the user row, remain
persisted. -/
theorem saveuser_partial_persistence :
    (∀ (db : DB) (f : Faults) (phone : String) (h : BcryptHash),
      db.users.any (fun u => u.phone == phone) = true →
      SaveUser db f phone h = (db, 0, some .userExists)) ∧
    (∀ (db : DB) (f : Faults) (phone : String) (h : BcryptHash),
      db.users.any (fun u => u.phone == phone) = false → 0 < db.nextId →
      (f.updateFeedFails = true ∨ f.insertFeedFails = true) →
      (SaveUser db f phone h).2.2.isSome = true ∧
      (SaveUser db f phone h).2.1 = db.nextId ∧
      0 < (SaveUser db f phone h).2.1 ∧
      ∃ fv, (⟨db.nextId, phone, h, fv⟩ : UserRow) ∈ (SaveUser db f phone h).1.users) ∧
    (∀ (db : DBB) (faults : Nat → Bool) (key : Nat) (phone : String) (h : BcryptHash),
      db.users.any (fun u => u.phone == phone) = true →
      SaveUserB db faults key phone h = (db, 0, some .userExists)) ∧
    (∀ (db : DBB) (faults : Nat → Bool) (key : Nat) (phone : String) (h : BcryptHash),
      db.users.any (fun u => u.phone == phone) = false → 0 < db.nextId →
      (∃ j, j < db.authorCat.length + db.articleCat.length + db.poetCat.length ∧
        faults j = true) →
      (SaveUserB db faults key phone h).2.2.isSome = true ∧
      (SaveUserB db faults key phone h).2.1 = db.nextId ∧
      0 < (SaveUserB db faults key phone h).2.1 ∧
      (⟨db.nextId, phone, h, authorsName key, authorsImage key⟩ : UserRowB) ∈
        (SaveUserB db faults key phone h).1.users) := by
  refine ⟨?_, ?_, ?_, ?_⟩
  · intro db f phone h hdup
    simp [SaveUser, hdup]
  · intro db f phone h hfresh hid hf
    rcases f with ⟨uf, inf⟩
    simp only [SaveUser, hfresh, Bool.false_eq_true, if_false]
    cases uf with
    | true =>
      simp only [if_true]
      exact ⟨by simp, by simp, by simpa using hid, ⟨0, by simp⟩⟩
    | false =>
      have hinf : inf = true := by
        rcases hf with h1 | h1
        · exact absurd h1 (by simp)
        · exact h1
      subst hinf
      simp only [Bool.false_eq_true, if_false, if_true]
      refine ⟨by simp, by simp, by simpa using hid, ⟨db.nextId, ?_⟩⟩
      have hmem : (⟨db.nextId, phone, h, 0⟩ : UserRow) ∈
          db.users ++ [(⟨db.nextId, phone, h, 0⟩ : UserRow)] := by simp
      have := List.mem_map_of_mem
        (fun u => if u.phone == phone then { u with feed := db.nextId } else u) hmem
      simpa using this
  · intro db faults key phone h hdup
    simp [SaveUserB, hdup]
  · intro db faults key phone h hfresh hid hex
    obtain ⟨j, hj, hfj⟩ := hex
    simp only [SaveUserB, hfresh, Bool.false_eq_true, if_false]
    by_cases hra : (insertLinks db.nextId db.authorCat faults 0 db.userAuthors).2.2 = true
    · simp only [hra, if_true]
      exact ⟨by simp, by simp, by simpa using hid, by simp⟩
    · have hra' : (insertLinks db.nextId db.authorCat faults 0 db.userAuthors).2.2 = false := by
        simpa using hra
      simp only [hra', Bool.false_eq_true, if_false]
      by_cases hrb : (insertLinks db.nextId db.articleCat faults
          (insertLinks db.nextId db.authorCat faults 0 db.userAuthors).2.1
          db.userArticles).2.2 = true
      · simp only [hrb, if_true]
        exact ⟨by simp, by simp, by simpa using hid, by simp⟩
      · have hrb' : (insertLinks db.nextId db.articleCat faults
            (insertLinks db.nextId db.authorCat faults 0 db.userAuthors).2.1
            db.userArticles).2.2 = false := by simpa using hrb
        simp only [hrb', Bool.false_eq_true, if_false]
        by_cases hrc : (insertLinks db.nextId db.poetCat faults
            (insertLinks db.nextId db.articleCat faults
              (insertLinks db.nextId db.authorCat faults 0 db.userAuthors).2.1
              db.userArticles).2.1
            db.userPoets).2.2 = true
        · simp only [hrc, if_true]
          exact ⟨by simp, by simp, by simpa using hid, by simp⟩
        · exfalso
          have hrc' : (insertLinks db.nextId db.poetCat faults
              (insertLinks db.nextId db.articleCat faults
                (insertLinks db.nextId db.authorCat faults 0 db.userAuthors).2.1
                db.userArticles).2.1
              db.userPoets).2.2 = false := by simpa using hrc
          obtain ⟨hA1, hA2⟩ := insertLinks_no_fail db.nextId faults db.authorCat 0 db.userAuthors hra'
          obtain ⟨hB1, hB2⟩ := insertLinks_no_fail db.nextId faults db.articleCat
            (insertLinks db.nextId db.authorCat faults 0 db.userAuthors).2.1 db.userArticles hrb'
          obtain ⟨hC1, hC2⟩ := insertLinks_no_fail db.nextId faults db.poetCat
            (insertLinks db.nextId db.articleCat faults
              (insertLinks db.nextId db.authorCat faults 0 db.userAuthors).2.1
              db.userArticles).2.1 db.userPoets hrc'
          rcases Nat.lt_or_ge j db.authorCat.length with h1 | h1
          · have := hA1 j h1
            rw [Nat.zero_add] at this
            rw [hfj] at this
            exact Bool.true_eq_false.mp this
          · rcases Nat.lt_or_ge j (db.authorCat.length + db.articleCat.length) with h2 | h2
            · have := hB1 (j - db.authorCat.length) (by omega)
              have heq : (insertLinks db.nextId db.authorCat faults 0 db.userAuthors).2.1 +
                  (j - db.authorCat.length) = j := by
                rw [hA2]; omega
              rw [heq, hfj] at this
              exact Bool.true_eq_false.mp this
            · have := hC1 (j - db.authorCat.length - db.articleCat.length) (by omega)
              have heq : (insertLinks db.nextId db.articleCat faults
                  (insertLinks db.nextId db.authorCat faults 0 db.userAuthors).2.1
                  db.userArticles).2.1 +
                  (j - db.authorCat.length - db.articleCat.length) = j := by
                rw [hB2, hA2]; omega
              rw [heq, hfj] at this
              exact Bool.true_eq_false.mp this

/-- Claim C10, witness: the four cases at concrete stores — a duplicate
phone in each revision, a faulted feed update on the empty first-revision
store, and a faulted first seeding insert on a second-revision store with
one catalog entry per table. -/
theorem saveuser_partial_persistence_witness :
    SaveUser ⟨[⟨1, "+70000000001", ⟨10, 0, [1]⟩, 1⟩], [], 2⟩ noFaults
        "+70000000001" ⟨10, 0, [2]⟩ =
      (⟨[⟨1, "+70000000001", ⟨10, 0, [1]⟩, 1⟩], [], 2⟩, 0, some .userExists) ∧
    ((SaveUser ⟨[], [], 1⟩ ⟨true, false⟩ "+70000000001" ⟨10, 0, [2]⟩).2.2.isSome = true ∧
      (SaveUser ⟨[], [], 1⟩ ⟨true, false⟩ "+70000000001" ⟨10, 0, [2]⟩).2.1 = 1 ∧
      0 < (SaveUser ⟨[], [], 1⟩ ⟨true, false⟩ "+70000000001" ⟨10, 0, [2]⟩).2.1 ∧
      ∃ fv, (⟨1, "+70000000001", ⟨10, 0, [2]⟩, fv⟩ : UserRow) ∈
        (SaveUser ⟨[], [], 1⟩ ⟨true, false⟩ "+70000000001" ⟨10, 0, [2]⟩).1.users) ∧
    SaveUserB ⟨[⟨1, "+70000000001", ⟨10, 0, [1]⟩, "", ""⟩], [], [], [], [], [], [], 2⟩
        (fun j => j == 0) 0 "+70000000001" ⟨10, 0, [2]⟩ =
      (⟨[⟨1, "+70000000001", ⟨10, 0, [1]⟩, "", ""⟩], [], [], [], [], [], [], 2⟩, 0,
        some .userExists) ∧
    ((SaveUserB ⟨[], [1001], [2001], [3001], [], [], [], 1⟩ (fun j => j == 0) 0
        "+70000000001" ⟨10, 0, [2]⟩).2.2.isSome = true ∧
      (SaveUserB ⟨[], [1001], [2001], [3001], [], [], [], 1⟩ (fun j => j == 0) 0
        "+70000000001" ⟨10, 0, [2]⟩).2.1 = 1 ∧
      0 < (SaveUserB ⟨[], [1001], [2001], [3001], [], [], [], 1⟩ (fun j => j == 0) 0
        "+70000000001" ⟨10, 0, [2]⟩).2.1 ∧
      (⟨1, "+70000000001", ⟨10, 0, [2]⟩, authorsName 0, authorsImage 0⟩ : UserRowB) ∈
        (SaveUserB ⟨[], [1001], [2001], [3001], [], [], [], 1⟩ (fun j => j == 0) 0
          "+70000000001" ⟨10, 0, [2]⟩).1.users) :=
  ⟨saveuser_partial_persistence.1 ⟨[⟨1, "+70000000001", ⟨10, 0, [1]⟩, 1⟩], [], 2⟩ noFaults
      "+70000000001" ⟨10, 0, [2]⟩ (by decide),
   saveuser_partial_persistence.2.1 ⟨[], [], 1⟩ ⟨true, false⟩ "+70000000001" ⟨10, 0, [2]⟩
      (by decide) (by decide) (Or.inl rfl),
   saveuser_partial_persistence.2.2.1
      ⟨[⟨1, "+70000000001", ⟨10, 0, [1]⟩, "", ""⟩], [], [], [], [], [], [], 2⟩
      (fun j => j == 0) 0 "+70000000001" ⟨10, 0, [2]⟩ (by decide),
   saveuser_partial_persistence.2.2.2 ⟨[], [1001], [2001], [3001], [], [], [], 1⟩
      (fun j => j == 0) 0 "+70000000001" ⟨10, 0, [2]⟩ (by decide) (by decide)
      ⟨0, by decide⟩⟩

end RusseLit
